import Mathlib

/-!
Verification of the Tableau-webhook-to-Slack relay (`webhook.py`).

The development shallowly embeds the protocol layer of the program:
XML response documents are modelled as trees (the result of
`xml.etree.ElementTree` parsing), HTTP responses carry a status, the
parse of their body (`none` when the body is not well-formed XML) and
the raw body text, and every operation that performs network calls is
a function from its request data and the responses supplied by the
environment to the list of network calls it issues together with its
outcome.  An uncaught Python exception is modelled as an
`Except.error` outcome.
-/

set_option autoImplicit false

namespace TableauSlack

/-- An XML element as produced by `xml.etree.ElementTree`: a tag (the
fully resolved name, namespace prefix included), an attribute
dictionary, the text before the first child, and the child elements in
document order. -/
inductive Xml where
  | elem (tag : String) (attrs : List (String × String)) (text : Option String)
      (children : List Xml)

/-- Tag of an element. -/
def xmlTag : Xml → String
  | .elem t _ _ _ => t

/-- Attribute dictionary of an element. -/
def xmlAttrs : Xml → List (String × String)
  | .elem _ a _ _ => a

/-- Text content of an element (`None` in Python when absent). -/
def xmlText : Xml → Option String
  | .elem _ _ t _ => t

/-- Child elements of an element. -/
def xmlChildren : Xml → List Xml
  | .elem _ _ _ c => c

/-- `element.get(name)`: attribute lookup, `none` when absent. -/
def xmlGet (x : Xml) (name : String) : Option String :=
  (xmlAttrs x).lookup name

/-- `element.get(name, default)`: attribute lookup with a default. -/
def xmlGetD (x : Xml) (name default : String) : String :=
  (xmlGet x name).getD default

mutual

/-- All proper descendants of an element, in document order (the set
`element.findall('.//...')` ranges over). -/
def xmlDescendants : Xml → List Xml
  | .elem _ _ _ cs => xmlDescendantsList cs

/-- Descendants contributed by a list of children, in document order. -/
def xmlDescendantsList : List Xml → List Xml
  | [] => []
  | c :: rest => c :: (xmlDescendants c ++ xmlDescendantsList rest)

end

/-- `element.findall('.//tag')`: every proper descendant with the given
tag, in document order. -/
def xmlFindAllDesc (x : Xml) (tag : String) : List Xml :=
  (xmlDescendants x).filter (fun c => xmlTag c == tag)

/-- `element.find('.//tag')`: first proper descendant with the given
tag, in document order. -/
def xmlFindDesc (x : Xml) (tag : String) : Option Xml :=
  (xmlFindAllDesc x tag).head?

/-- `element.find('tag')`: first direct child with the given tag. -/
def xmlFindChild (x : Xml) (tag : String) : Option Xml :=
  (xmlChildren x).find? (fun c => xmlTag c == tag)

/-- The Tableau XML namespace prefix that `ElementTree` attaches to
resolved tag names (`XMLNS = \x7b't': 'http://tableau.com/api'\x7d`). -/
def tableauNS : String := "\x7bhttp://tableau.com/api\x7d"

/-- A logical tag name qualified with the Tableau namespace. -/
def nsTag (t : String) : String := tableauNS ++ t

/-- An HTTP response from a remote peer: the status code, the
`ElementTree` parse of its text (`none` when the text is not
well-formed XML) and the raw text. -/
structure HttpResponse where
  status : Nat
  bodyDoc : Option Xml
  bodyText : String

/-- A network call issued by the program. -/
inductive NetCall where
  | post (url : String) (body : Xml)
  | get (url : String)

/-- An uncaught Python exception of the protocol layer:
`ApiCallError` raised by `_check_status`, an `ElementTree` parse
failure on a malformed body, or the `AttributeError` raised by calling
`.get` on the `None` returned by a failed `find`. -/
inductive PyError where
  | apiCallError (message : String)
  | parseError
  | attributeError
deriving DecidableEq, Repr

/-- Python string interpolation of a value that may be `None`. -/
def pyStrOpt : Option String → String
  | some s => s
  | none => "None"

/-- Python truthiness of an optional string: `None` and the empty
string are falsy. -/
def pyTruthy : Option String → Bool
  | none => false
  | some s => s != ""

/-- `VERSION` formatted into URL paths: `float('3.21')` rendered by
`str.format`, i.e. the configured API version. -/
def VERSION : String := "3.21"

/-- The fixed list `VALID_TABLEAU_EVENTS` from the source. -/
def VALID_TABLEAU_EVENTS : List String :=
  [ "AdminPromoted",
    "AdminDemoted",
    "DatasourceUpdated",
    "DatasourceCreated",
    "DatasourceDeleted",
    "DatasourceRefreshStarted",
    "DatasourceRefreshSucceeded",
    "DatasourceRefreshFailed",
    "LabelCreated",
    "LabelUpdated",
    "LabelDeleted",
    "SiteCreated",
    "SiteUpdated",
    "SiteDeleted",
    "UserDeleted",
    "ViewDeleted",
    "WorkbookUpdated",
    "WorkbookCreated",
    "WorkbookDeleted",
    "WorkbookRefreshStarted",
    "WorkbookRefreshSucceeded",
    "WorkbookRefreshFailed" ]

/-- The environment-derived configuration globals of the module. -/
structure Config where
  slack_webhook_url : String
  slack_channel : String
  slack_color : String
  tableau_server : String
  tableau_username : String
  tableau_password : String
  tableau_site_id : String

/-! ## `_encode_for_display`: ASCII sanitization

`text.encode('ascii', errors="backslashreplace").decode('utf-8')`
keeps every ASCII character and replaces each other character by its
Python backslash escape; decoding the resulting pure-ASCII bytes as
UTF-8 is the identity, so the whole is a character-wise map. -/

/-- One lowercase hexadecimal digit. -/
def hexDigit (n : Nat) : Char :=
  "0123456789abcdef".data.getD (n % 16) '0'

/-- Fixed-width lowercase hexadecimal rendering of `n`. -/
def hexDigits : Nat → Nat → List Char
  | 0, _ => []
  | w + 1, n => hexDigit (n / 16 ^ w) :: hexDigits w n

/-- The Python `backslashreplace` escape of a non-ASCII character:
`\xHH`, `\uHHHH` or `\UHHHHHHHH` by codepoint size. -/
def backslashEscape (c : Char) : List Char :=
  if c.toNat < 256 then '\\' :: 'x' :: hexDigits 2 c.toNat
  else if c.toNat < 65536 then '\\' :: 'u' :: hexDigits 4 c.toNat
  else '\\' :: 'U' :: hexDigits 8 c.toNat

/-- The character-wise action of `_encode_for_display`. -/
def encodeChar (c : Char) : List Char :=
  if c.toNat < 128 then [c] else backslashEscape c

/-- `_encode_for_display(text)` from the source. -/
def encode_for_display (s : String) : String :=
  ⟨(s.data.map encodeChar).flatten⟩

/-- `True` when every character of the list is ASCII (representable in
a Windows terminal, per the source docstring). -/
def asciiOnly (l : List Char) : Bool :=
  l.all (fun c => c.toNat < 128)

mutual

/-- Tree-level rendering of applying `_encode_for_display` to a
response text and re-parsing it: every string of the document is
sanitized (ASCII markup is untouched, so the document shape is
preserved). -/
def xmlSanitize : Xml → Xml
  | .elem tag attrs text children =>
      .elem (encode_for_display tag)
        (attrs.map (fun p => (encode_for_display p.1, encode_for_display p.2)))
        (text.map encode_for_display)
        (xmlSanitizeList children)

/-- `xmlSanitize` over a list of children. -/
def xmlSanitizeList : List Xml → List Xml
  | [] => []
  | c :: rest => xmlSanitize c :: xmlSanitizeList rest

end

/-! ## `_check_status`: the error classifier -/

/-- The three fault fields extracted by `_check_status` from a parsed
fault document: the `error` element is looked up as a direct child and
its `code` attribute read with default `'unknown'` (with
`'unknown code'` when the element itself is absent), while `summary`
and `detail` are looked up anywhere in the document and their text
taken (`'unknown summary'` / `'unknown detail'` when the element is
absent). -/
def faultFields (doc : Xml) : String × Option String × Option String :=
  let code := match xmlFindChild doc (nsTag "error") with
    | some e => xmlGetD e "code" "unknown"
    | none => "unknown code"
  let summary := match xmlFindDesc doc (nsTag "summary") with
    | some s => xmlText s
    | none => some "unknown summary"
  let detail := match xmlFindDesc doc (nsTag "detail") with
    | some d => xmlText d
    | none => some "unknown detail"
  (code, summary, detail)

/-- `'{0}: {1} - {2}'.format(code, summary, detail)` over the extracted
fault fields. -/
def faultMessage (doc : Xml) : String :=
  (faultFields doc).1 ++ ": " ++ pyStrOpt (faultFields doc).2.1 ++ " - " ++
    pyStrOpt (faultFields doc).2.2

/-- `_check_status(server_response, success_code)` from the source: on
a status mismatch the body text is parsed (`parseError` when it is not
well-formed XML) and `ApiCallError` raised with the formatted fault
message; otherwise it returns with no value. -/
def check_status (resp : HttpResponse) (successCode : Nat) : Except PyError Unit :=
  if resp.status ≠ successCode then
    match resp.bodyDoc with
    | none => .error .parseError
    | some doc => .error (.apiCallError (faultMessage doc))
  else .ok ()

/-- `True` exactly when the outcome is a raised `ApiCallError`. -/
def isApiCallError : Except PyError Unit → Bool
  | .error (.apiCallError _) => true
  | _ => false

/-! ## `sign_in`: the session manager -/

/-- The sign-in request body built by `sign_in`: a plain
(un-namespaced) `tsRequest` carrying the credentials and site. -/
def encode_signin (username password site : String) : Xml :=
  .elem "tsRequest" [] none
    [ .elem "credentials"
        [("personalAccessTokenName", username), ("personalAccessTokenSecret", password)]
        none
        [ .elem "site" [("contentUrl", site)] none [] ] ]

/-- The sign-in URL `server + "/api/{VERSION}/auth/signin"`. -/
def signin_url (server : String) : String :=
  server ++ "/api/" ++ VERSION ++ "/auth/signin"

/-- Lines 141-142 of the source, run on the sanitized and re-parsed
success body: `find('t:credentials').get('token')` raises
`AttributeError` when the `credentials` child is absent and otherwise
yields the `token` attribute (which may be absent, giving `None`
without an error), and likewise for `find('.//t:site').get('id')`. -/
def decode_signin_response (doc : Xml) : Except PyError (Option String × Option String) :=
  match xmlFindChild doc (nsTag "credentials") with
  | none => .error .attributeError
  | some cred =>
    match xmlFindDesc doc (nsTag "site") with
    | none => .error .attributeError
    | some siteEl => .ok (xmlGet cred "token", xmlGet siteEl "id")

/-- `sign_in(server, username, password, site)` from the source: one
POST of the encoded request to the sign-in URL; the response is
classified against 200, its text sanitized with `_encode_for_display`,
re-parsed, and the token and site id extracted. -/
def sign_in (server username password site : String) (resp : HttpResponse) :
    List NetCall × Except PyError (Option String × Option String) :=
  ([NetCall.post (signin_url server) (encode_signin username password site)],
   match check_status resp 200 with
   | .error e => .error e
   | .ok _ =>
     match resp.bodyDoc with
     | none => .error .parseError
     | some raw => decode_signin_response (xmlSanitize raw))

/-! ## The Flask routes -/

/-- A flat JSON object as returned by the `jsonify` calls of the
routes: key/value pairs of strings. -/
abbrev JsonBody := List (String × String)

/-- The webhook-creation payload built in `create_tableau_webhook`:
a plain (un-namespaced) `tsRequest` with a `webhook` element carrying
the `name` and `event` attributes and a nested
`webhook-destination`/`webhook-destination-http` pair with
`method='POST'` and the destination URL. -/
def encode_webhook_create (name event url : String) : Xml :=
  .elem "tsRequest" [] none
    [ .elem "webhook" [("name", name), ("event", event)] none
        [ .elem "webhook-destination" [] none
            [ .elem "webhook-destination-http" [("method", "POST"), ("url", url)] none [] ] ] ]

/-- The webhooks collection URL
`{server}/api/{VERSION}/sites/{site_id}/webhooks`. -/
def webhooks_url (server siteId : String) : String :=
  server ++ "/api/" ++ VERSION ++ "/sites/" ++ siteId ++ "/webhooks"

/-- The `/create_tableau_webhook` route.  `data.get(...)` yields the
three optional JSON fields; each falsy field is rejected with a
distinct 400 body, an event outside `VALID_TABLEAU_EVENTS` is rejected
with 400, and only then does the handler sign in, build the XML
payload, POST it to the webhooks URL and map a 201 to a success body
(any other status to a 500 body quoting the response text).  The pair
returned is the list of network calls issued and either the HTTP
result or an uncaught exception from `sign_in`. -/
def create_tableau_webhook (cfg : Config) (dataName dataEvent dataUrl : Option String)
    (signinResp createResp : HttpResponse) :
    List NetCall × Except PyError (Nat × JsonBody) :=
  if !(pyTruthy dataName) then
    ([], .ok (400, [("status", "failure"), ("error", "Webhook name is required")]))
  else if !(pyTruthy dataEvent) then
    ([], .ok (400, [("status", "failure"), ("error", "Event type is required")]))
  else if !(VALID_TABLEAU_EVENTS.contains (pyStrOpt dataEvent)) then
    ([], .ok (400, [("status", "failure"),
      ("error", "Invalid event type: " ++ pyStrOpt dataEvent ++
        ". Please refer to the valid event types: https://help.tableau.com/current/developer/webhooks/en-us/docs/webhooks-events-payload.html")]))
  else if !(pyTruthy dataUrl) then
    ([], .ok (400, [("status", "failure"), ("error", "Destination URL is required")]))
  else
    let signin := sign_in cfg.tableau_server cfg.tableau_username cfg.tableau_password
      cfg.tableau_site_id signinResp
    match signin.2 with
    | .error e => (signin.1, .error e)
    | .ok (_token, site_id) =>
      let payload := encode_webhook_create (pyStrOpt dataName) (pyStrOpt dataEvent)
        (pyStrOpt dataUrl)
      let calls := signin.1 ++ [NetCall.post (webhooks_url cfg.tableau_server (pyStrOpt site_id)) payload]
      if createResp.status = 201 then
        (calls, .ok (201, [("status", "success")]))
      else
        (calls, .ok (500, [("status", "failure"), ("error", createResp.bodyText)]))

/-- One entry of the `webhooks_data` list built by
`list_tableau_webhooks`: the `id`, `name` and `event` attributes of a
`webhook` element and the `url` attribute of its destination element
(each `None` in Python when the attribute is absent). -/
structure WebhookData where
  id : Option String
  name : Option String
  event : Option String
  url : Option String
deriving DecidableEq, Repr

/-- The loop body of `list_tableau_webhooks` over the `webhook`
elements found in the document: for each element, the nested
`webhook-destination-http` descendant is looked up
(`AttributeError` when absent, from `.get` on `None`) and the entry
built from the attributes. -/
def decodeWebhookElems : List Xml → Except PyError (List WebhookData)
  | [] => .ok []
  | w :: rest =>
    match xmlFindDesc w (nsTag "webhook-destination-http") with
    | none => .error .attributeError
    | some d =>
      match decodeWebhookElems rest with
      | .error e => .error e
      | .ok ws =>
        .ok ({ id := xmlGet w "id", name := xmlGet w "name",
               event := xmlGet w "event", url := xmlGet d "url" } :: ws)

/-- Lines 265-274 of the source: one entry per `webhook` element found
anywhere in the parsed list document, in document order. -/
def decode_webhook_list (root : Xml) : Except PyError (List WebhookData) :=
  decodeWebhookElems (xmlFindAllDesc root (nsTag "webhook"))

/-- The description the spec gives for one decoded webhook element:
`id`, `name`, `event` attributes and the nested destination element's
`url` attribute. -/
def specWebhookDescriptor (w : Xml) : WebhookData :=
  { id := xmlGet w "id", name := xmlGet w "name", event := xmlGet w "event",
    url := (xmlFindDesc w (nsTag "webhook-destination-http")).bind (fun d => xmlGet d "url") }

/-- `True` when a `webhook` element has the destination-http
descendant the decoder requires. -/
def hasDestHttp (w : Xml) : Bool :=
  (xmlFindDesc w (nsTag "webhook-destination-http")).isSome

/-- The `/list_tableau_webhooks` route: sign in, GET the webhooks
collection, classify against 200, parse the body and decode every
`webhook` element.  A success is the 200 response whose JSON body
carries the decoded list. -/
def list_tableau_webhooks (cfg : Config) (signinResp listResp : HttpResponse) :
    List NetCall × Except PyError (Nat × List WebhookData) :=
  let signin := sign_in cfg.tableau_server cfg.tableau_username cfg.tableau_password
    cfg.tableau_site_id signinResp
  match signin.2 with
  | .error e => (signin.1, .error e)
  | .ok (_token, site_id) =>
    let calls := signin.1 ++ [NetCall.get (webhooks_url cfg.tableau_server (pyStrOpt site_id))]
    match check_status listResp 200 with
    | .error e => (calls, .error e)
    | .ok _ =>
      match listResp.bodyDoc with
      | none => (calls, .error .parseError)
      | some root =>
        match decode_webhook_list root with
        | .error e => (calls, .error e)
        | .ok ws => (calls, .ok (200, ws))

/-! ## The `/webhook` event relay -/

/-- One field of a Slack attachment. -/
structure SlackField where
  title : String
  value : String
  short : Bool
deriving DecidableEq, Repr

/-- One Slack attachment. -/
structure SlackAttachment where
  fallback : String
  color : String
  pretext : String
  fields : List SlackField
deriving DecidableEq, Repr

/-- The `slack_data` payload POSTed to the Slack webhook URL. -/
structure SlackMessage where
  channel : String
  attachments : List SlackAttachment
deriving DecidableEq, Repr

/-- The `/webhook` route: the three JSON fields are read with
defaults (`'Unknown Event'`, `'No additional information provided.'`,
`'Unknown Resource'`), the Slack message built from them, and the
Slack response status mapped to a 200 success or a 500 failure body
quoting the response text.  The pair returned is the message POSTed to
Slack and the HTTP result. -/
def webhook_route (cfg : Config) (dataEventType dataText dataResourceName : Option String)
    (slackResp : HttpResponse) : SlackMessage × (Nat × JsonBody) :=
  let event_type := dataEventType.getD "Unknown Event"
  let text := dataText.getD "No additional information provided."
  let resource_name := dataResourceName.getD "Unknown Resource"
  let slack_data : SlackMessage :=
    { channel := cfg.slack_channel,
      attachments :=
        [ { fallback := event_type ++ " - " ++ resource_name,
            color := cfg.slack_color,
            pretext := event_type ++ ":",
            fields := [ { title := resource_name, value := text, short := false } ] } ] }
  (slack_data,
   if slackResp.status = 200 then (200, [("status", "success")])
   else (500, [("status", "failure"), ("error", slackResp.bodyText)]))

/-! ## The Tableau server, modelled from the spec

The Tableau server itself is an external collaborator with no code in
the repository; the round-trip claim needs its contract. -/

/-- Modelled from the spec: the Tableau server (the "sole source of
truth" for webhook subscriptions, not part of this repository) reads
the subscription fields from the create payload the client POSTs — the
`webhook` element's `name` and `event` attributes and the nested
destination element's `url`. -/
def serverParseCreate (payload : Xml) : Option (String × String × String) :=
  match xmlFindDesc payload "webhook" with
  | none => none
  | some w =>
    match xmlGet w "name", xmlGet w "event",
        (xmlFindDesc w "webhook-destination-http").bind (fun d => xmlGet d "url") with
    | some n, some e, some u => some (n, e, u)
    | _, _, _ => none

/-- Modelled from the spec: one `webhook` element of the list response
the Tableau server returns for a stored subscription
`(id, name, event, url)`, in the Tableau XML namespace. -/
def serverWebhookElem (s : String × String × String × String) : Xml :=
  .elem (nsTag "webhook") [("id", s.1), ("name", s.2.1), ("event", s.2.2.1)] none
    [ .elem (nsTag "webhook-destination") [] none
        [ .elem (nsTag "webhook-destination-http") [("method", "POST"), ("url", s.2.2.2)] none [] ] ]

/-- Modelled from the spec: the XML document the Tableau server
returns for a list request, one `webhook` element per stored
subscription, in order. -/
def serverListResponse (stored : List (String × String × String × String)) : Xml :=
  .elem (nsTag "tsResponse") [] none
    [ .elem (nsTag "webhooks") [] none (stored.map serverWebhookElem) ]

/-- `True` exactly when the optional `event` field of a creation
request is a member of `VALID_TABLEAU_EVENTS`. -/
def eventValid : Option String → Bool
  | none => false
  | some e => VALID_TABLEAU_EVENTS.contains e

/-! ## Concrete documents used by witnesses and counterexamples -/

/-- A typical Tableau fault document. -/
def exFaultDoc : Xml :=
  .elem (nsTag "tsResponse") [] none
    [ .elem (nsTag "error") [("code", "404008")] none
        [ .elem (nsTag "summary") [] (some "Resource Not Found") [],
          .elem (nsTag "detail") [] (some "missing") [] ] ]

/-- A fault document containing only a `summary` element. -/
def summaryOnlyDoc : Xml :=
  .elem (nsTag "tsResponse") [] none
    [ .elem (nsTag "summary") [] (some "S-TEXT") [] ]

/-- The `site` element of a successful sign-in body. -/
def exSiteElem : Xml :=
  .elem (nsTag "site") [("id", "sid"), ("contentUrl", "c")] none []

/-- The `credentials` element of a successful sign-in body. -/
def exCredsElem : Xml :=
  .elem (nsTag "credentials") [("token", "tok")] none [exSiteElem]

/-- A successful sign-in response body. -/
def exSigninDoc : Xml :=
  .elem (nsTag "tsResponse") [] none [exCredsElem]

/-- A sign-in body whose `credentials` element is absent. -/
def exNoCredsDoc : Xml :=
  .elem (nsTag "tsResponse") [] none []

/-- A sign-in body whose `credentials` element lacks the `token`
attribute (the `site` element and its `id` are present). -/
def noTokenAttrDoc : Xml :=
  .elem (nsTag "tsResponse") [] none
    [ .elem (nsTag "credentials") [] none
        [ .elem (nsTag "site") [("id", "sid")] none [] ] ]

/-- A concrete configuration. -/
def exCfg : Config :=
  ⟨"slackurl", "chan", "#C70039", "http://tab", "user", "pw", "site"⟩

/-! ## C3: the error classifier -/

/-- C3 (amended): `check_status` succeeds with no value exactly when
the status equals the expected code; on a mismatch it raises
`ApiCallError` with the extracted fault fields provided the body is
well-formed XML, while a malformed body makes the parse failure itself
propagate instead. -/
theorem check_status_spec (resp : HttpResponse) (code : Nat) :
    ((check_status resp code = .ok ()) ↔ resp.status = code)
    ∧ (∀ doc, resp.status ≠ code → resp.bodyDoc = some doc →
        check_status resp code = .error (.apiCallError (faultMessage doc)))
    ∧ (resp.status ≠ code → resp.bodyDoc = none →
        check_status resp code = .error .parseError) := by
  refine ⟨⟨fun h => ?_, fun h => ?_⟩, fun doc hne hb => ?_, fun hne hb => ?_⟩
  · by_contra hne
    unfold check_status at h
    rw [if_pos hne] at h
    cases hb : resp.bodyDoc <;> rw [hb] at h <;> cases h
  · unfold check_status
    rw [if_neg (by simp [h])]
  · unfold check_status
    rw [if_pos hne, hb]
  · unfold check_status
    rw [if_pos hne, hb]

/-- C3 counterexample: a 500 response whose body is not well-formed
XML makes `check_status` raise the parse failure, not `ApiCallError`,
so the claim that every mismatched response raises `ApiCallError` with
extracted fault fields is false at this input. -/
theorem check_status_malformed_body_cex :
    check_status ⟨500, none, "not xml"⟩ 200 = Except.error PyError.parseError
    ∧ isApiCallError (check_status ⟨500, none, "not xml"⟩ 200) = false :=
  ⟨rfl, rfl⟩

/-- C3 witness: the amended theorem evaluated on a concrete mismatched
response with a well-formed fault body. -/
theorem check_status_spec_witness :
    check_status ⟨404, some exFaultDoc, "t"⟩ 200
      = Except.error (PyError.apiCallError (faultMessage exFaultDoc))
    ∧ check_status ⟨200, some exFaultDoc, "t"⟩ 200 = Except.ok () :=
  ⟨(check_status_spec ⟨404, some exFaultDoc, "t"⟩ 200).2.1 exFaultDoc (by decide) rfl,
   ((check_status_spec ⟨200, some exFaultDoc, "t"⟩ 200).1).mpr rfl⟩

/-! ## C4: fault-field defaults -/

/-- C4: each of the three fault fields defaults independently when its
element is missing (`'unknown code'`, `'unknown summary'`,
`'unknown detail'`), a present `summary` element's text is passed
through unchanged, and a body holding only a `summary` element yields
exactly the two defaults plus its own summary text. -/
theorem fault_fields_default_independently (doc : Xml) :
    (xmlFindChild doc (nsTag "error") = none → (faultFields doc).1 = "unknown code")
    ∧ (xmlFindDesc doc (nsTag "summary") = none →
        (faultFields doc).2.1 = some "unknown summary")
    ∧ (xmlFindDesc doc (nsTag "detail") = none →
        (faultFields doc).2.2 = some "unknown detail")
    ∧ (∀ s, xmlFindDesc doc (nsTag "summary") = some s → (faultFields doc).2.1 = xmlText s)
    ∧ faultFields summaryOnlyDoc = ("unknown code", some "S-TEXT", some "unknown detail") := by
  refine ⟨fun h => ?_, fun h => ?_, fun h => ?_, fun s h => ?_, rfl⟩ <;>
    simp only [faultFields, h]

/-- C4 witness: the theorem evaluated on the summary-only document,
discharging each hypothesis there. -/
theorem fault_fields_default_independently_witness :
    (faultFields summaryOnlyDoc).1 = "unknown code"
    ∧ (faultFields summaryOnlyDoc).2.2 = some "unknown detail"
    ∧ (faultFields summaryOnlyDoc).2.1
        = xmlText (Xml.elem (nsTag "summary") [] (some "S-TEXT") []) :=
  ⟨(fault_fields_default_independently summaryOnlyDoc).1 rfl,
   (fault_fields_default_independently summaryOnlyDoc).2.2.1 rfl,
   (fault_fields_default_independently summaryOnlyDoc).2.2.2.1
     (Xml.elem (nsTag "summary") [] (some "S-TEXT") []) rfl⟩

/-! ## C7: decoding the sign-in body -/

/-- C7 (amended): the sign-in decode fails (with the `AttributeError`
that realizes the spec's `ProtocolError`) when the `credentials`
element or the `site` element is absent; when both elements are
present it succeeds, returning the `token` and `id` attributes as
optional values — an absent attribute yields an absent value instead
of a failure. -/
theorem decode_signin_response_spec (doc : Xml) :
    (xmlFindChild doc (nsTag "credentials") = none →
      decode_signin_response doc = .error .attributeError)
    ∧ (∀ cred, xmlFindChild doc (nsTag "credentials") = some cred →
        xmlFindDesc doc (nsTag "site") = none →
        decode_signin_response doc = .error .attributeError)
    ∧ (∀ cred siteEl, xmlFindChild doc (nsTag "credentials") = some cred →
        xmlFindDesc doc (nsTag "site") = some siteEl →
        decode_signin_response doc = .ok (xmlGet cred "token", xmlGet siteEl "id")) := by
  refine ⟨fun h => ?_, fun cred h1 h2 => ?_, fun cred siteEl h1 h2 => ?_⟩
  · simp only [decode_signin_response, h]
  · simp only [decode_signin_response, h1, h2]
  · simp only [decode_signin_response, h1, h2]

/-- C7 counterexample: a body whose `credentials` element lacks the
`token` attribute decodes successfully to an absent token, so the
claim that the decode fails whenever the token attribute is absent is
false at this input. -/
theorem decode_signin_missing_token_attr_cex :
    decode_signin_response noTokenAttrDoc = Except.ok (none, some "sid") := rfl

/-- C7 witness: the amended theorem evaluated on concrete bodies with
and without the `credentials` element. -/
theorem decode_signin_response_spec_witness :
    decode_signin_response exNoCredsDoc = Except.error PyError.attributeError
    ∧ decode_signin_response exSigninDoc = Except.ok (some "tok", some "sid") :=
  ⟨(decode_signin_response_spec exNoCredsDoc).1 rfl,
   (decode_signin_response_spec exSigninDoc).2.2 exCredsElem exSiteElem rfl rfl⟩

/-! ## C2: invalid event types are rejected before the network -/

/-- C2: a creation request whose `event` field is not a member of
`VALID_TABLEAU_EVENTS` is answered with HTTP 400 and a failure body,
and no network call at all is issued — in particular no sign-in
request. -/
theorem invalid_event_rejected_without_network (cfg : Config)
    (dataName dataEvent dataUrl : Option String) (signinResp createResp : HttpResponse)
    (h : eventValid dataEvent = false) :
    (create_tableau_webhook cfg dataName dataEvent dataUrl signinResp createResp).1 = []
    ∧ ∃ msg, (create_tableau_webhook cfg dataName dataEvent dataUrl signinResp createResp).2
        = .ok (400, [("status", "failure"), ("error", msg)]) := by
  unfold create_tableau_webhook
  by_cases h1 : pyTruthy dataName
  · by_cases h2 : pyTruthy dataEvent
    · have h3 : VALID_TABLEAU_EVENTS.contains (pyStrOpt dataEvent) = false := by
        cases dataEvent with
        | none => simp [pyTruthy] at h2
        | some e => simpa [eventValid] using h
      rw [h1, h2, h3]
      exact ⟨rfl, _, rfl⟩
    · rw [h1, eq_false_of_ne_true h2]
      exact ⟨rfl, _, rfl⟩
  · rw [eq_false_of_ne_true h1]
    exact ⟨rfl, _, rfl⟩

/-- C2 witness: the theorem evaluated on a concrete request with an
unknown event name. -/
theorem invalid_event_rejected_without_network_witness :
    (create_tableau_webhook exCfg (some "n") (some "NotARealEvent") (some "http://x")
        ⟨200, some exSigninDoc, ""⟩ ⟨201, none, ""⟩).1 = []
    ∧ ∃ msg, (create_tableau_webhook exCfg (some "n") (some "NotARealEvent") (some "http://x")
        ⟨200, some exSigninDoc, ""⟩ ⟨201, none, ""⟩).2
        = .ok (400, [("status", "failure"), ("error", msg)]) :=
  invalid_event_rejected_without_network exCfg (some "n") (some "NotARealEvent")
    (some "http://x") ⟨200, some exSigninDoc, ""⟩ ⟨201, none, ""⟩ (by decide)

/-! ## C1: the happy-path creation flow -/

/-- Every member of `VALID_TABLEAU_EVENTS` is a non-empty string, so a
valid event field is truthy. -/
theorem valid_event_truthy (e : String) (h : VALID_TABLEAU_EVENTS.contains e = true) :
    pyTruthy (some e) = true := by
  rcases eq_or_ne e "" with rfl | hne
  · exact absurd h (by decide)
  · simp [pyTruthy, hne]

/-- The sign-in operation always issues exactly its one POST. -/
theorem sign_in_calls (server username password site : String) (resp : HttpResponse) :
    (sign_in server username password site resp).1
      = [NetCall.post (signin_url server) (encode_signin username password site)] := rfl

/-- Evaluation of the creation handler on a valid request with a
successful sign-in and a 201 create response. -/
theorem create_run_eq (cfg : Config) (n e u : String) (tok sid : Option String)
    (signinResp createResp : HttpResponse)
    (hn : pyTruthy (some n) = true) (he : VALID_TABLEAU_EVENTS.contains e = true)
    (hu : pyTruthy (some u) = true)
    (hsign : (sign_in cfg.tableau_server cfg.tableau_username cfg.tableau_password
        cfg.tableau_site_id signinResp).2 = .ok (tok, sid))
    (h201 : createResp.status = 201) :
    create_tableau_webhook cfg (some n) (some e) (some u) signinResp createResp =
      ([NetCall.post (signin_url cfg.tableau_server)
          (encode_signin cfg.tableau_username cfg.tableau_password cfg.tableau_site_id),
        NetCall.post (webhooks_url cfg.tableau_server (pyStrOpt sid))
          (encode_webhook_create n e u)],
       .ok (201, [("status", "success")])) := by
  have ht : pyTruthy (some e) = true := valid_event_truthy e he
  have he2 : VALID_TABLEAU_EVENTS.contains (pyStrOpt (some e)) = true := he
  have hmem : e ∈ VALID_TABLEAU_EVENTS := by simpa using he
  simp [create_tableau_webhook, hn, ht, hu, he2, hmem, hsign, h201, sign_in_calls, pyStrOpt]

/-- C1 (amended): for every creation request with a truthy name, an
event drawn from `VALID_TABLEAU_EVENTS` and a truthy destination URL,
given a successful sign-in, the handler issues exactly one sign-in
POST followed by exactly one webhook-create POST, in that order, and
on a 201 response from Tableau it returns HTTP 201 with the body
`[("status", "success")]` — the server-assigned webhook id is not
extracted from the Tableau response body and is not returned to the
caller. -/
theorem tableau_webhook_create_valid_flow (cfg : Config) (n e u : String)
    (tok sid : Option String) (signinResp createResp : HttpResponse)
    (hn : pyTruthy (some n) = true) (he : VALID_TABLEAU_EVENTS.contains e = true)
    (hu : pyTruthy (some u) = true)
    (hsign : (sign_in cfg.tableau_server cfg.tableau_username cfg.tableau_password
        cfg.tableau_site_id signinResp).2 = .ok (tok, sid))
    (h201 : createResp.status = 201) :
    create_tableau_webhook cfg (some n) (some e) (some u) signinResp createResp =
      ([NetCall.post (signin_url cfg.tableau_server)
          (encode_signin cfg.tableau_username cfg.tableau_password cfg.tableau_site_id),
        NetCall.post (webhooks_url cfg.tableau_server (pyStrOpt sid))
          (encode_webhook_create n e u)],
       .ok (201, [("status", "success")])) :=
  create_run_eq cfg n e u tok sid signinResp createResp hn he hu hsign h201

/-- A 201 creation response whose body carries the server-assigned
webhook id `w-123`. -/
def exCreateOkDoc : Xml :=
  .elem (nsTag "tsResponse") [] none
    [ .elem (nsTag "webhook")
        [("id", "w-123"), ("name", "n"), ("event", "WorkbookRefreshFailed")] none [] ]

/-- C1 counterexample: on a valid request answered 201, with the
server-assigned id `w-123` present in the Tableau response body, the
handler returns only `[("status", "success")]` — no value of the
returned JSON body is the server-assigned id, so the claim that the
create operation returns the server-assigned webhook id to the caller
is false at this input. -/
theorem create_ignores_server_id_cex :
    (create_tableau_webhook exCfg (some "n") (some "WorkbookRefreshFailed") (some "http://x")
        ⟨200, some exSigninDoc, ""⟩ ⟨201, some exCreateOkDoc, "ts"⟩).2
      = Except.ok (201, [("status", "success")])
    ∧ (([("status", "success")] : JsonBody).map Prod.snd).contains "w-123" = false :=
  ⟨rfl, by decide⟩

/-- C1 witness: the amended theorem evaluated on a concrete valid
request. -/
theorem tableau_webhook_create_valid_flow_witness :
    create_tableau_webhook exCfg (some "n") (some "WorkbookRefreshFailed") (some "http://x")
        ⟨200, some exSigninDoc, ""⟩ ⟨201, some exCreateOkDoc, "ts"⟩
      = ([NetCall.post (signin_url "http://tab") (encode_signin "user" "pw" "site"),
          NetCall.post (webhooks_url "http://tab" "sid")
            (encode_webhook_create "n" "WorkbookRefreshFailed" "http://x")],
         .ok (201, [("status", "success")])) :=
  tableau_webhook_create_valid_flow exCfg "n" "WorkbookRefreshFailed" "http://x"
    (some "tok") (some "sid") ⟨200, some exSigninDoc, ""⟩ ⟨201, some exCreateOkDoc, "ts"⟩
    rfl (by decide) rfl rfl rfl

/-! ## C6 and C10: the event relay -/

/-- C6: for every inbound notification the relay deterministically
builds a Slack message whose fallback is `event_type - resource_name`,
whose pretext is `event_type:` and whose sole field is the resource
name titled over the text, not short, with the configured color and
channel; in particular the workbook-refresh example produces exactly
the message the spec displays. -/
theorem webhook_relay_builds_slack_message (cfg : Config) (et tx rn : String)
    (resp : HttpResponse) :
    (webhook_route cfg (some et) (some tx) (some rn) resp).1 =
      { channel := cfg.slack_channel,
        attachments :=
          [ { fallback := et ++ " - " ++ rn, color := cfg.slack_color, pretext := et ++ ":",
              fields := [ { title := rn, value := tx, short := false } ] } ] }
    ∧ (webhook_route cfg (some "WorkbookRefreshFailed") (some "boom") (some "Sales") resp).1 =
      { channel := cfg.slack_channel,
        attachments :=
          [ { fallback := "WorkbookRefreshFailed - Sales", color := cfg.slack_color,
              pretext := "WorkbookRefreshFailed:",
              fields := [ { title := "Sales", value := "boom", short := false } ] } ] } :=
  ⟨rfl, rfl⟩

/-- C10: the relay never fails on a missing field — each of the three
JSON fields is independently replaced by its default
(`Unknown Event`, `No additional information provided.`,
`Unknown Resource`) and the Slack message is built from the defaulted
values. -/
theorem webhook_defaults_missing_fields (cfg : Config) (det dtx drn : Option String)
    (resp : HttpResponse) :
    (webhook_route cfg det dtx drn resp).1 =
      { channel := cfg.slack_channel,
        attachments :=
          [ { fallback := det.getD "Unknown Event" ++ " - " ++ drn.getD "Unknown Resource",
              color := cfg.slack_color,
              pretext := det.getD "Unknown Event" ++ ":",
              fields := [ { title := drn.getD "Unknown Resource",
                            value := dtx.getD "No additional information provided.",
                            short := false } ] } ] }
    ∧ (webhook_route cfg none none none resp).1 =
      { channel := cfg.slack_channel,
        attachments :=
          [ { fallback := "Unknown Event - Unknown Resource", color := cfg.slack_color,
              pretext := "Unknown Event:",
              fields := [ { title := "Unknown Resource",
                            value := "No additional information provided.",
                            short := false } ] } ] } :=
  ⟨rfl, rfl⟩

/-! ## C8: decoding the webhook list -/

/-- The decode loop over a list of `webhook` elements: it succeeds
with one descriptor per element exactly when every element has a
destination-http descendant, and raises the `AttributeError`
otherwise. -/
theorem decodeWebhookElems_spec (l : List Xml) :
    (l.all hasDestHttp = true →
      decodeWebhookElems l = .ok (l.map specWebhookDescriptor))
    ∧ (l.all hasDestHttp = false → decodeWebhookElems l = .error .attributeError) := by
  induction l with
  | nil => exact ⟨fun _ => rfl, by simp⟩
  | cons w rest ih =>
    constructor
    · intro h
      simp only [List.all_cons, Bool.and_eq_true] at h
      obtain ⟨hw, hrest⟩ := h
      unfold decodeWebhookElems
      cases hd : xmlFindDesc w (nsTag "webhook-destination-http") with
      | none => simp [hasDestHttp, hd] at hw
      | some d =>
        rw [ih.1 hrest]
        simp [specWebhookDescriptor, hd]
    · intro h
      unfold decodeWebhookElems
      cases hd : xmlFindDesc w (nsTag "webhook-destination-http") with
      | none => rfl
      | some d =>
        have hw : hasDestHttp w = true := by simp [hasDestHttp, hd]
        have hrest : rest.all hasDestHttp = false := by
          simpa [List.all_cons, hw] using h
        rw [ih.2 hrest]

/-- C8: decoding a webhook-list document yields one descriptor per
`webhook` element found among the descendants of the root, in
document order, reading the `id`, `name`, `event` attributes and the
nested destination element's `url` attribute, and raises the
`AttributeError` realizing the spec's `ProtocolError` exactly when
some `webhook` element lacks a destination-http descendant. -/
theorem decode_webhook_list_spec (root : Xml) :
    ((xmlFindAllDesc root (nsTag "webhook")).all hasDestHttp = true →
      decode_webhook_list root
        = .ok ((xmlFindAllDesc root (nsTag "webhook")).map specWebhookDescriptor))
    ∧ ((xmlFindAllDesc root (nsTag "webhook")).all hasDestHttp = false →
      decode_webhook_list root = .error .attributeError) :=
  decodeWebhookElems_spec (xmlFindAllDesc root (nsTag "webhook"))

/-- A list document one of whose `webhook` elements lacks the
destination-http descendant. -/
def exBadListDoc : Xml :=
  .elem (nsTag "tsResponse") [] none
    [ .elem (nsTag "webhooks") [] none
        [ .elem (nsTag "webhook") [("id", "w1"), ("name", "a"), ("event", "SiteCreated")]
            none [] ] ]

/-- C8 witness: the theorem evaluated on a concrete well-formed list
document and on one whose `webhook` element has no destination. -/
theorem decode_webhook_list_spec_witness :
    decode_webhook_list (serverListResponse [("i1", "n1", "e1", "u1")])
      = .ok ((xmlFindAllDesc (serverListResponse [("i1", "n1", "e1", "u1")])
          (nsTag "webhook")).map specWebhookDescriptor)
    ∧ decode_webhook_list exBadListDoc = .error .attributeError :=
  ⟨(decode_webhook_list_spec (serverListResponse [("i1", "n1", "e1", "u1")])).1 (by decide),
   (decode_webhook_list_spec exBadListDoc).2 (by decide)⟩

/-! ## C9: ASCII sanitization -/

/-- `asciiOnly` characterized element-wise. -/
theorem asciiOnly_iff (l : List Char) : asciiOnly l = true ↔ ∀ c ∈ l, c.toNat < 128 := by
  simp [asciiOnly]

/-- `asciiOnly` distributes over append. -/
theorem asciiOnly_append (a b : List Char) :
    asciiOnly (a ++ b) = (asciiOnly a && asciiOnly b) := by
  simp [asciiOnly]

/-- `List.getD` stays inside an ASCII alphabet. -/
theorem getD_ascii (l : List Char) (d : Char) (hd : d.toNat < 128) :
    asciiOnly l = true → ∀ i, (l.getD i d).toNat < 128 := by
  induction l with
  | nil => intro _ i; simpa [List.getD] using hd
  | cons c cs ih =>
    intro hl i
    rw [asciiOnly_iff] at hl
    have hcs : asciiOnly cs = true := (asciiOnly_iff cs).mpr fun x hx => hl x (by simp [hx])
    cases i with
    | zero => simpa using hl c (by simp)
    | succ j => simpa using ih hcs j

/-- Every hexadecimal digit is ASCII. -/
theorem hexDigit_ascii (n : Nat) : (hexDigit n).toNat < 128 :=
  getD_ascii "0123456789abcdef".data '0' (by decide) (by decide) (n % 16)

/-- Every hexadecimal rendering is ASCII. -/
theorem hexDigits_ascii (w : Nat) : ∀ n, asciiOnly (hexDigits w n) = true := by
  induction w with
  | zero => intro n; rfl
  | succ k ih =>
    intro n
    rw [asciiOnly_iff]
    intro c hc
    simp only [hexDigits, List.mem_cons] at hc
    rcases hc with rfl | hc
    · exact hexDigit_ascii _
    · exact (asciiOnly_iff _).mp (ih _) c hc

/-- Every backslash escape is ASCII. -/
theorem backslashEscape_ascii (c : Char) : asciiOnly (backslashEscape c) = true := by
  have h2 := hexDigits_ascii 2 c.toNat
  have h4 := hexDigits_ascii 4 c.toNat
  have h8 := hexDigits_ascii 8 c.toNat
  unfold backslashEscape
  split
  · rw [asciiOnly_iff]
    intro x hx
    simp only [List.mem_cons] at hx
    rcases hx with rfl | rfl | hx
    · decide
    · decide
    · exact (asciiOnly_iff _).mp h2 x hx
  · split
    · rw [asciiOnly_iff]
      intro x hx
      simp only [List.mem_cons] at hx
      rcases hx with rfl | rfl | hx
      · decide
      · decide
      · exact (asciiOnly_iff _).mp h4 x hx
    · rw [asciiOnly_iff]
      intro x hx
      simp only [List.mem_cons] at hx
      rcases hx with rfl | rfl | hx
      · decide
      · decide
      · exact (asciiOnly_iff _).mp h8 x hx

/-- The image of each character under the sanitizer is ASCII. -/
theorem encodeChar_ascii (c : Char) : asciiOnly (encodeChar c) = true := by
  unfold encodeChar
  split
  · rename_i h; simp [asciiOnly, h]
  · exact backslashEscape_ascii c

/-- The full sanitized character list is ASCII. -/
theorem encodeList_ascii (l : List Char) : asciiOnly ((l.map encodeChar).flatten) = true := by
  induction l with
  | nil => rfl
  | cons c cs ih =>
    simp only [List.map_cons, List.flatten_cons, asciiOnly_append, Bool.and_eq_true]
    exact ⟨encodeChar_ascii c, ih⟩

/-- Sanitizing an ASCII character list is the identity. -/
theorem encodeList_id (l : List Char) : asciiOnly l = true → (l.map encodeChar).flatten = l := by
  induction l with
  | nil => intro _; rfl
  | cons c cs ih =>
    intro h
    rw [asciiOnly_iff] at h
    have hc : c.toNat < 128 := h c (by simp)
    have hcs : asciiOnly cs = true := (asciiOnly_iff cs).mpr fun x hx => h x (by simp [hx])
    simp only [List.map_cons, List.flatten_cons, encodeChar, if_pos hc, ih hcs,
      List.singleton_append]

/-- C9 (amended): the sanitizer returns only ASCII characters, leaves
ASCII input unchanged and replaces every character outside the ASCII
range by its (ASCII, backslash-leading) escaped placeholder; the
sign-in response text passes through this sanitization before it is
parsed — but other response texts (fault bodies and list bodies) are
embedded without it. -/
theorem encode_for_display_spec (s : String) (c : Char) :
    asciiOnly (encode_for_display s).data = true
    ∧ (asciiOnly s.data = true → encode_for_display s = s)
    ∧ (c.toNat < 128 → encodeChar c = [c])
    ∧ (128 ≤ c.toNat →
        encodeChar c = backslashEscape c ∧ (encodeChar c).head? = some '\\'
        ∧ asciiOnly (encodeChar c) = true)
    ∧ (∀ srv un pw st (resp : HttpResponse) (doc : Xml),
        resp.status = 200 → resp.bodyDoc = some doc →
        (sign_in srv un pw st resp).2 = decode_signin_response (xmlSanitize doc)) := by
  refine ⟨encodeList_ascii s.data, fun h => ?_, fun h => ?_,
    fun h => ⟨?_, ?_, encodeChar_ascii c⟩, ?_⟩
  · show (⟨(s.data.map encodeChar).flatten⟩ : String) = s
    rw [encodeList_id s.data h]
  · simp [encodeChar, h]
  · simp [encodeChar, Nat.not_lt.mpr h]
  · have hn : ¬ c.toNat < 128 := Nat.not_lt.mpr h
    simp only [encodeChar, if_neg hn]
    unfold backslashEscape
    split
    · rfl
    · split <;> rfl
  · intro srv un pw st resp doc h200 hdoc
    simp [sign_in, check_status, h200, hdoc]

/-- A fault document whose summary text holds a non-ASCII character. -/
def nonAsciiFaultDoc : Xml :=
  .elem (nsTag "tsResponse") [] none
    [ .elem (nsTag "summary") [] (some "é-fault") [] ]

/-- C9 counterexample: a mismatched response whose fault body holds
non-ASCII text makes `check_status` embed that text, unsanitized, into
the raised `ApiCallError` — so the claim that every response text is
passed through the sanitization before being embedded into
higher-level structures is false at this input. -/
theorem fault_text_unsanitized_cex :
    check_status ⟨409, some nonAsciiFaultDoc, "raw"⟩ 200
      = Except.error (PyError.apiCallError "unknown code: é-fault - unknown detail")
    ∧ asciiOnly "unknown code: é-fault - unknown detail".data = false :=
  ⟨rfl, by decide⟩

/-- C9 witness: the amended theorem evaluated on concrete strings,
characters and a concrete sign-in response. -/
theorem encode_for_display_spec_witness :
    asciiOnly (encode_for_display "café").data = true
    ∧ encode_for_display "abc" = "abc"
    ∧ encodeChar 'a' = ['a']
    ∧ encodeChar 'é' = backslashEscape 'é'
    ∧ (sign_in "s" "u" "p" "t" ⟨200, some exSigninDoc, ""⟩).2
        = decode_signin_response (xmlSanitize exSigninDoc) :=
  ⟨(encode_for_display_spec "café" 'a').1,
   (encode_for_display_spec "abc" 'a').2.1 (by decide),
   (encode_for_display_spec "abc" 'a').2.2.1 (by decide),
   ((encode_for_display_spec "abc" 'é').2.2.2.1 (by decide)).1,
   (encode_for_display_spec "abc" 'a').2.2.2.2 "s" "u" "p" "t" ⟨200, some exSigninDoc, ""⟩
     exSigninDoc rfl rfl⟩

/-! ## C5: create-then-list round trip -/

/-- Filtering the interleaved descendants of the server list body for
the `webhook` tag recovers exactly the stored webhook elements, in
order. -/
theorem descList_filter (stored : List (String × String × String × String)) :
    (xmlDescendantsList (stored.map serverWebhookElem)).filter
        (fun c => xmlTag c == nsTag "webhook")
      = stored.map serverWebhookElem := by
  induction stored with
  | nil => rfl
  | cons s rest ih =>
    simp only [List.map_cons, xmlDescendantsList, serverWebhookElem, xmlDescendants,
      List.filter_cons, List.filter_append]
    simp only [xmlTag]
    norm_num
    exact ih

/-- The `webhook` elements found in a server list response are the
stored webhook elements. -/
theorem serverList_findAll (stored : List (String × String × String × String)) :
    xmlFindAllDesc (serverListResponse stored) (nsTag "webhook")
      = stored.map serverWebhookElem := by
  unfold xmlFindAllDesc serverListResponse
  simp only [xmlDescendants, xmlDescendantsList, List.append_nil, List.filter_cons, xmlTag]
  norm_num
  exact descList_filter stored

/-- Decoding a server list response recovers every stored
subscription, in order. -/
theorem serverList_decode (stored : List (String × String × String × String)) :
    decode_webhook_list (serverListResponse stored)
      = .ok (stored.map fun s =>
          (⟨some s.1, some s.2.1, some s.2.2.1, some s.2.2.2⟩ : WebhookData)) := by
  unfold decode_webhook_list
  rw [serverList_findAll]
  induction stored with
  | nil => rfl
  | cons s rest ih =>
    simp only [List.map_cons, decodeWebhookElems]
    rw [show xmlFindDesc (serverWebhookElem s) (nsTag "webhook-destination-http")
        = some (Xml.elem (nsTag "webhook-destination-http")
            [("method", "POST"), ("url", s.2.2.2)] none []) from rfl]
    rw [ih]
    rfl

/-- C5: after a successful create of a webhook with a given name,
event and destination URL — the create payload carries exactly those
three values, as `serverParseCreate` (modelled from the spec) reads
them — a subsequent list against a Tableau server whose stored
collection includes that subscription returns a sequence containing a
descriptor whose name, event and destination url equal the values
supplied at creation. -/
theorem create_then_list_roundtrip (cfg : Config) (n e u i : String)
    (tok sid : Option String)
    (prior post : List (String × String × String × String))
    (signinResp createResp : HttpResponse) (listText : String)
    (hn : pyTruthy (some n) = true) (he : VALID_TABLEAU_EVENTS.contains e = true)
    (hu : pyTruthy (some u) = true)
    (hsign : (sign_in cfg.tableau_server cfg.tableau_username cfg.tableau_password
        cfg.tableau_site_id signinResp).2 = .ok (tok, sid))
    (h201 : createResp.status = 201) :
    (create_tableau_webhook cfg (some n) (some e) (some u) signinResp createResp).2
      = .ok (201, [("status", "success")])
    ∧ serverParseCreate (encode_webhook_create n e u) = some (n, e, u)
    ∧ ∃ ws, (list_tableau_webhooks cfg signinResp
          ⟨200, some (serverListResponse (prior ++ (i, n, e, u) :: post)), listText⟩).2
        = .ok (200, ws)
      ∧ (⟨some i, some n, some e, some u⟩ : WebhookData) ∈ ws := by
  refine ⟨?_, rfl, ?_⟩
  · rw [create_run_eq cfg n e u tok sid signinResp createResp hn he hu hsign h201]
  · refine ⟨(prior ++ (i, n, e, u) :: post).map
        (fun s => (⟨some s.1, some s.2.1, some s.2.2.1, some s.2.2.2⟩ : WebhookData)), ?_, ?_⟩
    · simp only [list_tableau_webhooks, hsign]
      rw [show check_status
          ⟨200, some (serverListResponse (prior ++ (i, n, e, u) :: post)), listText⟩ 200
          = .ok () from rfl]
      rw [serverList_decode]
    · rw [List.mem_map]
      refine ⟨(i, n, e, u), ?_, rfl⟩
      simp

/-- C5 witness: the round trip evaluated on one concrete
subscription. -/
theorem create_then_list_roundtrip_witness :
    (create_tableau_webhook exCfg (some "wb") (some "SiteCreated") (some "http://dest")
        ⟨200, some exSigninDoc, ""⟩ ⟨201, none, ""⟩).2 = .ok (201, [("status", "success")])
    ∧ serverParseCreate (encode_webhook_create "wb" "SiteCreated" "http://dest")
        = some ("wb", "SiteCreated", "http://dest")
    ∧ ∃ ws, (list_tableau_webhooks exCfg ⟨200, some exSigninDoc, ""⟩
          ⟨200, some (serverListResponse [("w9", "wb", "SiteCreated", "http://dest")]), "lt"⟩).2
        = .ok (200, ws)
      ∧ (⟨some "w9", some "wb", some "SiteCreated", some "http://dest"⟩ : WebhookData) ∈ ws :=
  create_then_list_roundtrip exCfg "wb" "SiteCreated" "http://dest" "w9"
    (some "tok") (some "sid") [] [] ⟨200, some exSigninDoc, ""⟩ ⟨201, none, ""⟩ "lt"
    rfl (by decide) rfl rfl rfl

end TableauSlack
